import Mathlib

/-!
# Verification of the MyLobster++ Conan recipe (`src/conanfile.py`)

A shallow embedding of the build-option-to-toolchain-configuration pipeline
declared in `conanfile.py`:

* the option set (`options` / `default_options`, lines 14–21) and Conan's
  option-override resolution over it (overrides arrive as raw strings and are
  checked against the declared boolean domain);
* the `generate` step (lines 36–43), which records three toolchain variables;
* the `package_info` step (lines 54–62), which publishes the consumer contract
  with a platform-conditional system-library list.

All executable definitions mirror the Python source line by line; theorems
below settle the specification's claims about them.
-/

namespace MyLobsterPP

/-- The platform facts read from `settings = "os", "compiler", "build_type",
"arch"` (line 13).  OS families are the strings Conan uses
(`"Windows"`, `"Linux"`, `"Macos"`, ...). -/
structure PlatformFacts where
  os : String
  compiler : String
  build_type : String
  arch : String
deriving DecidableEq, Repr

/-- The declared option domains, mirroring the `options` dict
(lines 14–17): two options, each with the boolean domain `[True, False]`. -/
def options : List (String × List Bool) :=
  [("shared", [true, false]), ("build_executable", [true, false])]

/-- The declared defaults, mirroring the `default_options` dict
(lines 18–21). -/
def default_options : List (String × Bool) :=
  [("shared", false), ("build_executable", true)]

/-- A fully resolved assignment to the two declared options. -/
structure BuildOptions where
  shared : Bool
  build_executable : Bool
deriving DecidableEq, Repr

/-- The resolved options when nothing is overridden: each option takes its
declared default from `default_options`. -/
def defaults : BuildOptions :=
  { shared := false, build_executable := true }

/-- Resolution failure: an override named an unrecognized option or supplied a
value outside the declared boolean domain (the spec's `InvalidOptionError`). -/
inductive OptionError where
  | invalidOption (name : String) (value : String)
deriving DecidableEq, Repr

/-- Conan checks an override's raw string value against the string forms of the
declared domain entries `[True, False]`; anything else is out of domain. -/
def parseBool (v : String) : Option Bool :=
  if v = "True" then some true
  else if v = "False" then some false
  else none

/-- Apply a single override `name=value` to a resolved state: the value must be
in the boolean domain and the name must be one of the two declared options
(lines 14–17); otherwise resolution fails with `InvalidOptionError`. -/
def applyOverride (opts : BuildOptions) (n v : String) :
    Except OptionError BuildOptions :=
  match parseBool v with
  | none => .error (.invalidOption n v)
  | some b =>
    if n = "shared" then .ok { opts with shared := b }
    else if n = "build_executable" then .ok { opts with build_executable := b }
    else .error (.invalidOption n v)

/-- Apply a list of overrides, left to right, on top of a base assignment. -/
def resolveFrom (base : BuildOptions) :
    List (String × String) → Except OptionError BuildOptions
  | [] => .ok base
  | (n, v) :: rest =>
    match applyOverride base n v with
    | .error e => .error e
    | .ok b => resolveFrom b rest

/-- `resolve overrides`: apply the overrides on top of the declared defaults,
yielding the resolved `BuildOptions` or an `InvalidOptionError`. -/
def resolve (ov : List (String × String)) : Except OptionError BuildOptions :=
  resolveFrom defaults ov

/-- A value stored in the toolchain configuration (the recipe only stores
booleans into `tc.variables`). -/
inductive TCValue where
  | boolVal (b : Bool)
deriving DecidableEq, Repr

/-- The `generate` step (lines 36–43): the toolchain configuration recorded by
the recipe is exactly the three `tc.variables` assignments, in order:
`MYLOBSTER_BUILD_TESTS = False`, `MYLOBSTER_BUILD_SHARED = options.shared`,
`MYLOBSTER_BUILD_EXECUTABLE = options.build_executable`. -/
def generate (opts : BuildOptions) (_p : PlatformFacts) :
    List (String × TCValue) :=
  [("MYLOBSTER_BUILD_TESTS", .boolVal false),
   ("MYLOBSTER_BUILD_SHARED", .boolVal opts.shared),
   ("MYLOBSTER_BUILD_EXECUTABLE", .boolVal opts.build_executable)]

/-- The consumer-facing package metadata published by `package_info`. -/
structure PackageInfo where
  libs : List String
  cmake_file_name : String
  cmake_target_name : String
  requires : List String
  system_libs : List String
deriving DecidableEq, Repr

/-- The `package_info` step (lines 54–62).  It sets the fixed consumer
contract, assigns `system_libs = ["pthread"]` unconditionally, then overwrites
it with `["ws2_32"]` when `settings.os == "Windows"` — the sequential-overwrite
branch of the source, translated as written.  The method reads only
`settings.os`; the options argument reflects that `self.options` is in scope
but never consulted. -/
def package_info (_opts : BuildOptions) (p : PlatformFacts) : PackageInfo :=
  let step1 : PackageInfo :=
    { libs := ["mylobster_lib"],
      cmake_file_name := "mylobster",
      cmake_target_name := "mylobster::mylobster",
      requires := [],
      system_libs := ["pthread"] }
  if p.os = "Windows" then { step1 with system_libs := ["ws2_32"] } else step1

/-- The configure pipeline: resolve the overrides, then run `generate`.  When
resolution fails, no toolchain configuration is produced. -/
def configurePipeline (ov : List (String × String)) (p : PlatformFacts) :
    Except OptionError (List (String × TCValue)) :=
  match resolve ov with
  | .error e => .error e
  | .ok opts => .ok (generate opts p)

/-- An override entry is valid when its name is one of the two declared
options and its value parses into the boolean domain. -/
def validEntry (e : String × String) : Prop :=
  (e.1 = "shared" ∨ e.1 = "build_executable") ∧ (parseBool e.2).isSome

instance (e : String × String) : Decidable (validEntry e) := by
  unfold validEntry; infer_instance

/-- The parsed value of the last override of `name` in the list, if any. -/
def lastBool (name : String) : List (String × String) → Option Bool
  | [] => none
  | (n, v) :: rest =>
    match lastBool name rest with
    | some b => some b
    | none => if n = name then parseBool v else none

theorem applyOverride_ok_valid {base b : BuildOptions} {n v : String}
    (h : applyOverride base n v = .ok b) : validEntry (n, v) := by
  rcases hp : parseBool v with _ | pb
  · simp only [applyOverride, hp] at h
    exact Except.noConfusion h
  · by_cases h1 : n = "shared"
    · exact ⟨Or.inl h1, by rw [hp]; rfl⟩
    · by_cases h2 : n = "build_executable"
      · exact ⟨Or.inr h2, by rw [hp]; rfl⟩
      · simp only [applyOverride, hp, if_neg h1, if_neg h2] at h
        exact Except.noConfusion h

theorem resolveFrom_ok_valid :
    ∀ (ov : List (String × String)) (base r : BuildOptions),
      resolveFrom base ov = .ok r → ∀ e ∈ ov, validEntry e := by
  intro ov
  induction ov with
  | nil => intro base r _ e he; cases he
  | cons hd tl ih =>
    intro base r h e he
    obtain ⟨n, v⟩ := hd
    unfold resolveFrom at h
    rcases ha : applyOverride base n v with e' | b
    · rw [ha] at h; exact absurd h (by simp)
    · rw [ha] at h
      rcases List.mem_cons.mp he with he | he
      · subst he; exact applyOverride_ok_valid ha
      · exact ih b r h e he

theorem resolveFrom_eq_of_valid :
    ∀ (ov : List (String × String)) (base : BuildOptions),
      (∀ e ∈ ov, validEntry e) →
      resolveFrom base ov =
        .ok { shared := (lastBool "shared" ov).getD base.shared,
              build_executable :=
                (lastBool "build_executable" ov).getD base.build_executable } := by
  intro ov
  induction ov with
  | nil => intro base _; rfl
  | cons hd tl ih =>
    intro base hval
    obtain ⟨n, v⟩ := hd
    obtain ⟨hn, hv⟩ := hval (n, v) (List.mem_cons_self _ _)
    have htl : ∀ e ∈ tl, validEntry e := fun e he => hval e (List.mem_cons_of_mem _ he)
    rcases hp : parseBool v with _ | pb
    · rw [hp] at hv; exact absurd hv (by simp)
    · rcases hn with hn | hn <;> subst hn
      · have ha : applyOverride base "shared" v = .ok { base with shared := pb } := by
          simp [applyOverride, hp]
        unfold resolveFrom
        rw [ha]
        show resolveFrom { base with shared := pb } tl = _
        rw [ih _ htl]
        cases hls : lastBool "shared" tl <;>
          cases hle : lastBool "build_executable" tl <;>
            simp [lastBool, hls, hle, hp]
      · have ha : applyOverride base "build_executable" v =
            .ok { base with build_executable := pb } := by
          simp [applyOverride, hp]
        unfold resolveFrom
        rw [ha]
        show resolveFrom { base with build_executable := pb } tl = _
        rw [ih _ htl]
        cases hls : lastBool "shared" tl <;>
          cases hle : lastBool "build_executable" tl <;>
            simp [lastBool, hls, hle, hp]

theorem lastBool_eq_none (name : String) :
    ∀ ov : List (String × String),
      (∀ v, (name, v) ∉ ov) → lastBool name ov = none := by
  intro ov
  induction ov with
  | nil => intro _; rfl
  | cons hd tl ih =>
    intro h
    obtain ⟨n, w⟩ := hd
    have hn : n ≠ name := by
      intro he; subst he; exact h w (List.mem_cons_self _ _)
    have htl : ∀ v, (name, v) ∉ tl := fun v hv => h v (List.mem_cons_of_mem _ hv)
    simp [lastBool, ih htl, if_neg hn]

theorem resolveFrom_idem {ov : List (String × String)} {base r : BuildOptions}
    (h : resolveFrom base ov = .ok r) : resolveFrom r ov = .ok r := by
  have hval := resolveFrom_ok_valid ov base r h
  rw [resolveFrom_eq_of_valid ov base hval] at h
  rw [resolveFrom_eq_of_valid ov r hval]
  injection h with h
  subst h
  cases hls : lastBool "shared" ov <;>
    cases hle : lastBool "build_executable" ov <;> simp [hls, hle]

/-- **C1**: for every resolved `BuildOptions` and every platform, the toolchain
configuration produced by `generate` contains exactly the three recognized
keys — the test-enablement flag forced to `false`, the shared-library flag
equal to the resolved `shared` option, and the executable-enablement flag
equal to the resolved `build_executable` option; in particular, for
`shared=false, build_executable=true` on a Linux platform the configuration is
`shared=false, build_executable=true, build_tests=false` and the published
system libraries are `["pthread"]`. -/
theorem generate_recognized_keys (opts : BuildOptions) (p q : PlatformFacts)
    (hq : q.os = "Linux") :
    generate opts p =
      [("MYLOBSTER_BUILD_TESTS", TCValue.boolVal false),
       ("MYLOBSTER_BUILD_SHARED", TCValue.boolVal opts.shared),
       ("MYLOBSTER_BUILD_EXECUTABLE", TCValue.boolVal opts.build_executable)] ∧
    generate { shared := false, build_executable := true } q =
      [("MYLOBSTER_BUILD_TESTS", TCValue.boolVal false),
       ("MYLOBSTER_BUILD_SHARED", TCValue.boolVal false),
       ("MYLOBSTER_BUILD_EXECUTABLE", TCValue.boolVal true)] ∧
    (package_info { shared := false, build_executable := true } q).system_libs =
      ["pthread"] := by
  refine ⟨rfl, rfl, ?_⟩
  simp [package_info, hq]

/-- Witness for **C1** at a concrete option assignment and Linux platform. -/
theorem generate_recognized_keys_witness :
    generate { shared := true, build_executable := false }
        { os := "Linux", compiler := "gcc", build_type := "Release",
          arch := "x86_64" } =
      [("MYLOBSTER_BUILD_TESTS", TCValue.boolVal false),
       ("MYLOBSTER_BUILD_SHARED", TCValue.boolVal true),
       ("MYLOBSTER_BUILD_EXECUTABLE", TCValue.boolVal false)] ∧
    generate { shared := false, build_executable := true }
        { os := "Linux", compiler := "gcc", build_type := "Release",
          arch := "x86_64" } =
      [("MYLOBSTER_BUILD_TESTS", TCValue.boolVal false),
       ("MYLOBSTER_BUILD_SHARED", TCValue.boolVal false),
       ("MYLOBSTER_BUILD_EXECUTABLE", TCValue.boolVal true)] ∧
    (package_info { shared := false, build_executable := true }
        { os := "Linux", compiler := "gcc", build_type := "Release",
          arch := "x86_64" }).system_libs = ["pthread"] :=
  generate_recognized_keys { shared := true, build_executable := false }
    { os := "Linux", compiler := "gcc", build_type := "Release",
      arch := "x86_64" }
    { os := "Linux", compiler := "gcc", build_type := "Release",
      arch := "x86_64" } rfl

/-- **C2**: the option set consists of exactly two boolean options with the
declared defaults `shared = false` and `build_executable = true`, and any
option not overridden in an invocation resolves to its default. -/
theorem option_set_defaults (ov : List (String × String)) (r : BuildOptions)
    (h : resolve ov = .ok r) :
    options = [("shared", [true, false]), ("build_executable", [true, false])] ∧
    default_options = [("shared", false), ("build_executable", true)] ∧
    resolve [] = .ok { shared := false, build_executable := true } ∧
    ((∀ v, ("shared", v) ∉ ov) → r.shared = false) ∧
    ((∀ v, ("build_executable", v) ∉ ov) → r.build_executable = true) := by
  have hval := resolveFrom_ok_valid ov defaults r h
  rw [resolve, resolveFrom_eq_of_valid ov defaults hval] at h
  injection h with h
  refine ⟨rfl, rfl, rfl, ?_, ?_⟩
  · intro hno
    rw [← h]
    simp [lastBool_eq_none "shared" ov hno, defaults]
  · intro hno
    rw [← h]
    simp [lastBool_eq_none "build_executable" ov hno, defaults]

/-- Witness for **C2**: overriding only `build_executable` leaves `shared` at
its default `false`. -/
theorem option_set_defaults_witness :
    options = [("shared", [true, false]), ("build_executable", [true, false])] ∧
    default_options = [("shared", false), ("build_executable", true)] ∧
    resolve [] = .ok { shared := false, build_executable := true } ∧
    ((∀ v, ("shared", v) ∉ [("build_executable", "False")]) →
      (BuildOptions.mk false false).shared = false) ∧
    ((∀ v, ("build_executable", v) ∉ [("build_executable", "False")]) →
      (BuildOptions.mk false false).build_executable = true) :=
  option_set_defaults [("build_executable", "False")]
    (BuildOptions.mk false false) rfl

/-- **C3**: the published system-library list is exactly `["ws2_32"]` when the
OS is Windows and exactly `["pthread"]` otherwise — in particular for Linux,
macOS, and every other POSIX family, all of which have `os ≠ "Windows"`. -/
theorem system_libs_by_platform (opts : BuildOptions) (p : PlatformFacts) :
    (p.os = "Windows" → (package_info opts p).system_libs = ["ws2_32"]) ∧
    (p.os ≠ "Windows" → (package_info opts p).system_libs = ["pthread"]) := by
  constructor <;> intro h <;> simp [package_info, h]

/-- Witness for **C3** on concrete Windows, Linux, and macOS platforms. -/
theorem system_libs_by_platform_witness :
    (package_info { shared := false, build_executable := true }
        { os := "Windows", compiler := "msvc", build_type := "Release",
          arch := "x86_64" }).system_libs = ["ws2_32"] ∧
    (package_info { shared := false, build_executable := true }
        { os := "Linux", compiler := "gcc", build_type := "Release",
          arch := "x86_64" }).system_libs = ["pthread"] ∧
    (package_info { shared := false, build_executable := true }
        { os := "Macos", compiler := "apple-clang", build_type := "Release",
          arch := "armv8" }).system_libs = ["pthread"] :=
  ⟨(system_libs_by_platform _ _).1 rfl,
   (system_libs_by_platform _ _).2 (by decide),
   (system_libs_by_platform _ _).2 (by decide)⟩

/-- **C4, counterexample**: the claim says an unrecognized OS must fail closed
with `UnsupportedPlatformError`; the code has no error path at all — at the
unrecognized OS `"baremetal"` it returns a full `PackageInfo` whose
system-library list is the POSIX default `["pthread"]`. -/
theorem package_info_unrecognized_os_counterexample :
    package_info { shared := false, build_executable := true }
        { os := "baremetal", compiler := "gcc", build_type := "Release",
          arch := "armv8" } =
      { libs := ["mylobster_lib"], cmake_file_name := "mylobster",
        cmake_target_name := "mylobster::mylobster", requires := [],
        system_libs := ["pthread"] } := by
  rfl

/-- **C4, amended**: for every platform whose OS is not Windows — recognized
POSIX families and unrecognized values alike — the Package Info Publisher does
not fail; the sequential-overwrite branch leaves the POSIX default, so the
published system-library list is `["pthread"]`. -/
theorem package_info_non_windows_default (opts : BuildOptions)
    (p : PlatformFacts) (h : p.os ≠ "Windows") :
    (package_info opts p).system_libs = ["pthread"] := by
  simp [package_info, h]

/-- Witness for the amended **C4** at an unrecognized OS value. -/
theorem package_info_non_windows_default_witness :
    (package_info { shared := true, build_executable := true }
        { os := "Neutrino", compiler := "qcc", build_type := "Release",
          arch := "armv8" }).system_libs = ["pthread"] :=
  package_info_non_windows_default { shared := true, build_executable := true }
    { os := "Neutrino", compiler := "qcc", build_type := "Release",
      arch := "armv8" } (by decide)

/-- **C5**: for every input, `package_info` publishes the fixed consumer
contract — link libraries `["mylobster_lib"]`, package file name
`"mylobster"`, target name `"mylobster::mylobster"`, and an empty `requires`
list.  Purity is structural: the embedding is a total function of its
arguments with no other effects, matching the source, which only assigns
fields of `cpp_info`. -/
theorem package_info_fixed_contract (opts : BuildOptions) (p : PlatformFacts) :
    (package_info opts p).libs = ["mylobster_lib"] ∧
    (package_info opts p).cmake_file_name = "mylobster" ∧
    (package_info opts p).cmake_target_name = "mylobster::mylobster" ∧
    (package_info opts p).requires = [] := by
  unfold package_info
  split <;> exact ⟨rfl, rfl, rfl, rfl⟩

/-- **C6**: `generate` is deterministic — two calls with identical resolved
options and identical platform facts produce identical toolchain
configuration content. -/
theorem generate_deterministic (o₁ o₂ : BuildOptions) (p₁ p₂ : PlatformFacts)
    (ho : o₁ = o₂) (hp : p₁ = p₂) : generate o₁ p₁ = generate o₂ p₂ := by
  rw [ho, hp]

/-- Witness for **C6** at concrete equal inputs. -/
theorem generate_deterministic_witness :
    generate { shared := false, build_executable := true }
        { os := "Linux", compiler := "gcc", build_type := "Release",
          arch := "x86_64" } =
      generate { shared := false, build_executable := true }
        { os := "Linux", compiler := "gcc", build_type := "Release",
          arch := "x86_64" } :=
  generate_deterministic { shared := false, build_executable := true }
    { shared := false, build_executable := true }
    { os := "Linux", compiler := "gcc", build_type := "Release",
      arch := "x86_64" }
    { os := "Linux", compiler := "gcc", build_type := "Release",
      arch := "x86_64" } rfl rfl

/-- **C7**: option resolution is idempotent — when resolving an override
mapping succeeds with result `r`, resolving the same overrides again (applied
on top of the already-resolved state `r`) yields the identical `r`. -/
theorem resolve_idempotent (ov : List (String × String)) (r : BuildOptions)
    (h : resolve ov = .ok r) :
    resolve ov = .ok r ∧ resolveFrom r ov = .ok r :=
  ⟨h, resolveFrom_idem h⟩

/-- Witness for **C7** at a concrete override mapping. -/
theorem resolve_idempotent_witness :
    resolve [("shared", "True"), ("build_executable", "False")] =
      .ok { shared := true, build_executable := false } ∧
    resolveFrom { shared := true, build_executable := false }
        [("shared", "True"), ("build_executable", "False")] =
      .ok { shared := true, build_executable := false } :=
  resolve_idempotent [("shared", "True"), ("build_executable", "False")]
    { shared := true, build_executable := false } rfl

/-- **C8**: an override with an unrecognized option name or a value outside
the boolean domain makes `resolve` fail with `InvalidOptionError` (the only
error the resolver produces), and the configure pipeline then produces no
toolchain configuration.  Nothing is mutated: resolution is a pure function
of the declared defaults and the override list. -/
theorem resolve_invalid_override (ov : List (String × String))
    (p : PlatformFacts) (n v : String) (hmem : (n, v) ∈ ov)
    (hbad : ¬ validEntry (n, v)) :
    (∃ n' v', resolve ov = .error (.invalidOption n' v')) ∧
    (∃ n' v', configurePipeline ov p = .error (.invalidOption n' v')) := by
  rcases hr : resolve ov with e | r
  · rcases e with ⟨n', v'⟩
    exact ⟨⟨n', v', rfl⟩, ⟨n', v', by simp [configurePipeline, hr]⟩⟩
  · exact absurd (resolveFrom_ok_valid ov defaults r hr (n, v) hmem) hbad

/-- Witness for **C8**: the spec's scenario 3, the out-of-domain override
`shared = "yes"`. -/
theorem resolve_invalid_override_witness :
    (∃ n' v', resolve [("shared", "yes")] =
      .error (.invalidOption n' v')) ∧
    (∃ n' v', configurePipeline [("shared", "yes")]
        { os := "Linux", compiler := "gcc", build_type := "Release",
          arch := "x86_64" } =
      .error (.invalidOption n' v')) :=
  resolve_invalid_override [("shared", "yes")]
    { os := "Linux", compiler := "gcc", build_type := "Release",
      arch := "x86_64" } "shared" "yes" (List.mem_singleton.mpr rfl)
    (by decide)

/-- **C10**: the published `PackageInfo` is independent of the build options —
for any two resolved option assignments on the same platform the publisher
returns the same record in every field; the output varies only with the OS. -/
theorem package_info_option_invariant (o₁ o₂ : BuildOptions)
    (p : PlatformFacts) : package_info o₁ p = package_info o₂ p := rfl

end MyLobsterPP
